import Mathlib

/-!
Verification of the SoulSurfer frontend core: the session lifecycle state
machine (App in the unnamed source file), the session poller
(ProcessingScreen.jsx), the transport error normalization (api.js), and the
chat session (ChatPanel.jsx). Each JavaScript function is shallowly embedded
as an executable Lean definition, translated line by line from the source.
-/

namespace SoulSurfer

/-! Session status, as reported by the backend on each poll. -/

inductive SessionStatus
  | pending
  | processing
  | completed
  | failed
deriving DecidableEq

/-- The session payload returned by getSession. The poller inspects only the
status field and forwards the whole object to onComplete; all other report
fields are abstracted into body. -/
structure SessionData where
  status : SessionStatus
  body : String
deriving DecidableEq

/-! Lifecycle Controller: the App component state, lines 204 to 258 of the
unnamed source file. Four useState cells: screen, sessionId, report, error. -/

inductive Screen
  | upload
  | processing
  | results
deriving DecidableEq

structure AppState where
  screen : Screen
  sessionId : Option String
  report : Option SessionData
  error : String
deriving DecidableEq

/-- Initial state: useState of upload, null, null, empty string. -/
def initialState : AppState :=
  { screen := .upload, sessionId := none, report := none, error := "" }

/-- handleSessionCreated: setSessionId(id); setScreen(processing); setError(empty). -/
def handleSessionCreated (id : String) (s : AppState) : AppState :=
  { s with sessionId := some id, screen := .processing, error := "" }

/-- handleComplete: setReport(data); setScreen(results). -/
def handleComplete (data : SessionData) (s : AppState) : AppState :=
  { s with report := some data, screen := .results }

/-- handleError: setError(msg); setScreen(upload). Note that it does not touch
sessionId or report. -/
def handleError (msg : String) (s : AppState) : AppState :=
  { s with error := msg, screen := .upload }

/-- handleReset: setScreen(upload); setSessionId(null); setReport(null);
setError(empty). -/
def handleReset (s : AppState) : AppState :=
  { s with screen := .upload, sessionId := none, report := none, error := "" }

/-- Reachable App states. Each callback fires only while its owning component
is mounted: handleSessionCreated from UploadForm (mounted on the upload
screen), handleComplete and handleError from ProcessingScreen (mounted on the
processing screen, and silenced by cancellation once unmounted), handleReset
from ResultsScreen or as an abort from any screen. -/
inductive ReachableApp : AppState → Prop
  | init : ReachableApp initialState
  | created {s : AppState} (id : String) :
      ReachableApp s → s.screen = .upload → ReachableApp (handleSessionCreated id s)
  | complete {s : AppState} (data : SessionData) :
      ReachableApp s → s.screen = .processing → ReachableApp (handleComplete data s)
  | failure {s : AppState} (msg : String) :
      ReachableApp s → s.screen = .processing → ReachableApp (handleError msg s)
  | reset {s : AppState} :
      ReachableApp s → ReachableApp (handleReset s)

/-- C6: For every invocation of reset on the Lifecycle Controller, regardless
of the current state, the state becomes upload and the session id, the report,
and the displayed error are all cleared: the resulting state is exactly the
initial state. -/
theorem reset_clears_everything (s : AppState) : handleReset s = initialState := by
  rfl

/-- C3 counterexample: from a processing state carrying session id abc,
handleError moves to upload and stores the message, but the session id is
still abc afterwards, not discarded as the claim states. -/
theorem handleError_keeps_sessionId :
    (handleError "Processing failed. Please try again with a different video."
        { screen := .processing, sessionId := some "abc", report := none, error := "" }).screen
      = Screen.upload
    ∧ (handleError "Processing failed. Please try again with a different video."
        { screen := .processing, sessionId := some "abc", report := none, error := "" }).error
      = "Processing failed. Please try again with a different video."
    ∧ (handleError "Processing failed. Please try again with a different video."
        { screen := .processing, sessionId := some "abc", report := none, error := "" }).sessionId
      ≠ none := by
  refine ⟨rfl, rfl, ?_⟩
  decide

/-- C3 amended: when the Lifecycle Controller receives failed(message) while
in the processing state, it moves to the upload state and stores the message
for display; the session id (and the report) are left unchanged — the id is
discarded only by reset or overwritten by the next sessionCreated. -/
theorem handleError_from_processing (msg : String) (s : AppState)
    (h : s.screen = .processing) :
    handleError msg s
      = { screen := .upload, sessionId := s.sessionId, report := s.report, error := msg } := by
  rfl

/-- Witness for C3 amended at a concrete processing state. -/
theorem handleError_from_processing_witness :
    ({ screen := .processing, sessionId := some "abc", report := none,
       error := "" } : AppState).screen = Screen.processing
    ∧ handleError "boom"
        { screen := .processing, sessionId := some "abc", report := none, error := "" }
      = { screen := .upload, sessionId := some "abc", report := none, error := "boom" } :=
  ⟨rfl, handleError_from_processing "boom"
      { screen := .processing, sessionId := some "abc", report := none, error := "" } rfl⟩

/-- C9: in every reachable state of the Lifecycle Controller, a stored report
exists if and only if the screen is results: handleComplete stores the report
and enters results together, handleReset clears the report and leaves results
together, and no other reachable combination occurs. -/
theorem report_iff_results {s : AppState} (h : ReachableApp s) :
    s.report.isSome = true ↔ s.screen = Screen.results := by
  induction h with
  | init => simp [initialState]
  | created id _ hscr ih =>
      simp only [handleSessionCreated] at *
      constructor
      · intro hrep
        exact absurd (ih.mp hrep) (by simp [hscr])
      · intro hcontra
        simp at hcontra
  | complete data _ _ _ =>
      simp [handleComplete]
  | failure msg _ hscr ih =>
      simp only [handleError] at *
      constructor
      · intro hrep
        exact absurd (ih.mp hrep) (by simp [hscr])
      · intro hcontra
        simp at hcontra
  | reset _ _ =>
      simp [handleReset]

/-- Witness for C9 at the concrete reachable state reached by creating a
session from the initial state and then completing it. -/
theorem report_iff_results_witness :
    ReachableApp (handleComplete ⟨.completed, "report"⟩
        (handleSessionCreated "abc" initialState))
    ∧ ((handleComplete ⟨.completed, "report"⟩
          (handleSessionCreated "abc" initialState)).report.isSome = true
        ↔ (handleComplete ⟨.completed, "report"⟩
            (handleSessionCreated "abc" initialState)).screen = Screen.results) :=
  ⟨ReachableApp.complete ⟨.completed, "report"⟩
      (ReachableApp.created "abc" ReachableApp.init rfl) rfl,
    report_iff_results
      (ReachableApp.complete ⟨.completed, "report"⟩
        (ReachableApp.created "abc" ReachableApp.init rfl) rfl)⟩

/-! Session Poller: the poll function inside ProcessingScreen.jsx, lines 28
to 63. Each poll calls getSession; its resolution is either the parsed
session data or a thrown transport error. The cancellation flag cancelledRef
is read at exactly two points per poll: before issuing the request (line 32)
and before acting on its resolution (line 37 for a response, line 51 for a
thrown error). -/

/-- Resolution of one getSession call: the parsed data, or the message of the
thrown transport error. -/
inductive PollResult
  | ok (data : SessionData)
  | err (msg : String)
deriving DecidableEq

/-- A callback invocation made by the poller: onComplete with the received
data, or onError with a message. -/
inductive PollEvent
  | complete (data : SessionData)
  | failure (msg : String)
deriving DecidableEq

/-- The fixed user-facing message passed to onError when a poll reports
status failed (ProcessingScreen.jsx line 45). -/
def processingFailedMsg : String :=
  "Processing failed. Please try again with a different video."

/-- One poll resolution acted on by a non-cancelled poller: the events it
emits and whether it schedules the next poll (setTimeout at line 49). -/
def runPoller : List PollResult → List PollEvent
  | [] => []
  | .err m :: _ => [.failure m]
  | .ok d :: rest =>
    match d.status with
    | .completed => [.complete d]
    | .failed => [.failure processingFailedMsg]
    | _ => runPoller rest

/-- Number of polls actually issued by a non-cancelled run fed the given
resolutions: a terminal response or a transport error stops the loop, so
later resolutions are never requested. -/
def pollCount : List PollResult → Nat
  | [] => 0
  | .err _ :: _ => 1
  | .ok d :: rest =>
    match d.status with
    | .completed => 1
    | .failed => 1
    | _ => 1 + pollCount rest

/-- The poller run with cancellation. The countdown c is the number of
cancellation checks that still read false before the flag flips to true:
each poll reads the flag twice (before issue, before acting on the
resolution), so c = 0 cancels before the next poll is issued, c = 1 cancels
while it is in flight (the resolution is then discarded at the second check,
for responses and thrown errors alike), and c ≥ 2 lets the poll act
normally. The flag flips once and never resets within a run. -/
def runPollerC : Nat → List PollResult → List PollEvent
  | _, [] => []
  | 0, _ :: _ => []
  | 1, _ :: _ => []
  | c + 2, r :: rest =>
    match r with
    | .err m => [.failure m]
    | .ok d =>
      match d.status with
      | .completed => [.complete d]
      | .failed => [.failure processingFailedMsg]
      | _ => runPollerC c rest

/-- Whether a poll response lets the loop continue: status pending or
processing. -/
def isNonTerminal : PollResult → Bool
  | .ok d =>
    match d.status with
    | .pending => true
    | .processing => true
    | _ => false
  | .err _ => false

/-- A run that has only seen non-terminal responses so far behaves on the
remaining resolutions as a fresh run would. -/
theorem runPoller_append_nonTerminal (pre rest : List PollResult)
    (h : pre.all isNonTerminal = true) :
    runPoller (pre ++ rest) = runPoller rest := by
  induction pre with
  | nil => rfl
  | cons r pre ih =>
      simp only [List.all_cons, Bool.and_eq_true] at h
      match r, h.1 with
      | .ok d, hr =>
          cases hs : d.status <;> simp [hs, isNonTerminal] at hr ⊢ <;>
            first
              | exact ih h.2
              | simp [runPoller, hs, ih h.2]

/-- Poll counting distributes over a non-terminal prefix. -/
theorem pollCount_append_nonTerminal (pre rest : List PollResult)
    (h : pre.all isNonTerminal = true) :
    pollCount (pre ++ rest) = pre.length + pollCount rest := by
  induction pre with
  | nil => simp [pollCount]
  | cons r pre ih =>
      simp only [List.all_cons, Bool.and_eq_true] at h
      match r, h.1 with
      | .ok d, hr =>
          cases hs : d.status <;> simp [hs, isNonTerminal] at hr ⊢ <;>
            simp [pollCount, hs, ih h.2, List.length_cons] <;> omega

/-- C1: once cancellation is invoked, no subsequent resolved poll invokes
onComplete or onError. With the cancellation flag flipping at check number c,
the run emits exactly the events of an uncancelled run over the first c / 2
resolutions — the polls that both issued and acted before the flip. In
particular a poll in flight at cancellation (odd c) resolves but is
discarded, whether it resolves with a status or with a transport error, and
polls after cancellation contribute nothing. -/
theorem poller_cancellation_silences (c : Nat) (rs : List PollResult) :
    runPollerC c rs = runPoller (rs.take (c / 2)) := by
  induction rs generalizing c with
  | nil => simp [runPollerC, runPoller]
  | cons r rest ih =>
      match c with
      | 0 => simp [runPollerC, runPoller]
      | 1 =>
          have : (1 : Nat) / 2 = 0 := rfl
          simp [runPollerC, this, runPoller]
      | c + 2 =>
          have hdiv : (c + 2) / 2 = c / 2 + 1 := by omega
          rw [hdiv]
          match r with
          | .err m => simp [runPollerC, runPoller]
          | .ok d =>
              cases hs : d.status <;>
                simp [runPollerC, runPoller, hs, ih c]

/-- C2: in a non-cancelled run, while every response is pending or
processing no callback fires and every response leads to the next poll; the
first completed response makes the run emit exactly one onComplete carrying
the received data and issue no further poll; the first failed response makes
it emit exactly one onError with the fixed message and issue no further
poll. -/
theorem poller_terminal_behaviour (pre : List PollResult)
    (h : pre.all isNonTerminal = true) :
    runPoller pre = []
    ∧ pollCount pre = pre.length
    ∧ (∀ (d : SessionData) (rest : List PollResult), d.status = .completed →
        runPoller (pre ++ .ok d :: rest) = [.complete d]
        ∧ pollCount (pre ++ .ok d :: rest) = pre.length + 1)
    ∧ (∀ (d : SessionData) (rest : List PollResult), d.status = .failed →
        runPoller (pre ++ .ok d :: rest) = [.failure processingFailedMsg]
        ∧ pollCount (pre ++ .ok d :: rest) = pre.length + 1) := by
  refine ⟨?_, ?_, ?_, ?_⟩
  · have := runPoller_append_nonTerminal pre [] h
    simpa [runPoller] using this
  · have := pollCount_append_nonTerminal pre [] h
    simpa [pollCount] using this
  · intro d rest hd
    refine ⟨?_, ?_⟩
    · rw [runPoller_append_nonTerminal pre _ h]
      simp [runPoller, hd]
    · rw [pollCount_append_nonTerminal pre _ h]
      simp [pollCount, hd]
  · intro d rest hd
    refine ⟨?_, ?_⟩
    · rw [runPoller_append_nonTerminal pre _ h]
      simp [runPoller, hd]
    · rw [pollCount_append_nonTerminal pre _ h]
      simp [pollCount, hd]

/-- Witness for C2: two non-terminal responses then a completed one. -/
theorem poller_terminal_behaviour_witness :
    ([PollResult.ok ⟨.processing, "a"⟩, PollResult.ok ⟨.pending, "b"⟩].all
        isNonTerminal = true)
    ∧ runPoller ([PollResult.ok ⟨.processing, "a"⟩, PollResult.ok ⟨.pending, "b"⟩]
          ++ .ok ⟨.completed, "done"⟩ :: [])
      = [.complete ⟨.completed, "done"⟩] :=
  ⟨by decide,
    ((poller_terminal_behaviour
        [PollResult.ok ⟨.processing, "a"⟩, PollResult.ok ⟨.pending, "b"⟩]
        (by decide)).2.2.1 ⟨.completed, "done"⟩ [] rfl).1⟩

/-- C8: in a non-cancelled run, a transport failure on any poll invokes
onError exactly once with the transport error message and issues no further
poll — there is no retry of individual polls. -/
theorem poller_transport_failure_terminal (pre : List PollResult)
    (h : pre.all isNonTerminal = true) (m : String) (rest : List PollResult) :
    runPoller (pre ++ .err m :: rest) = [.failure m]
    ∧ pollCount (pre ++ .err m :: rest) = pre.length + 1 := by
  refine ⟨?_, ?_⟩
  · rw [runPoller_append_nonTerminal pre _ h]
    rfl
  · rw [pollCount_append_nonTerminal pre _ h]
    rfl

/-- Witness for C8: one processing response, then a network error. -/
theorem poller_transport_failure_terminal_witness :
    ([PollResult.ok ⟨.processing, "a"⟩].all isNonTerminal = true)
    ∧ runPoller ([PollResult.ok ⟨.processing, "a"⟩]
          ++ .err "network down" :: [.ok ⟨.completed, "late"⟩])
      = [.failure "network down"] :=
  ⟨by decide,
    (poller_transport_failure_terminal [PollResult.ok ⟨.processing, "a"⟩]
        (by decide) "network down" [.ok ⟨.completed, "late"⟩]).1⟩

/-! Chat Session: the handleSend function in ChatPanel.jsx, lines 26 to 48.
State cells: messages, input, loading, error. handleSend trims the input,
no-ops when the trimmed text is empty or loading is set, otherwise clears
input and error, appends the user message, sets loading, awaits sendChat,
then on success appends one assistant message and on failure stores the
error message; finally clears loading. -/

inductive ChatRole
  | user
  | assistant
deriving DecidableEq

structure ChatMessage where
  role : ChatRole
  content : String
deriving DecidableEq

structure ChatState where
  messages : List ChatMessage
  input : String
  loading : Bool
  error : String
deriving DecidableEq

/-- Resolution of the awaited sendChat call: the reply field of the response,
or the message of the thrown transport error. -/
inductive ChatOutcome
  | reply (r : String)
  | fail (msg : String)
deriving DecidableEq

/-- Model of the JavaScript trim call at line 28: strips whitespace from both
ends of the string. -/
def jsTrim (s : String) : String :=
  String.mk (((s.data.dropWhile Char.isWhitespace).reverse.dropWhile
    Char.isWhitespace).reverse)

/-- The synchronous part of handleSend, up to the await of sendChat: returns
the state at the moment the request is issued, and the text sent (none when
the guard at line 29 made the call a no-op and no request was issued). -/
def sendStart (st : ChatState) : ChatState × Option String :=
  let text := jsTrim st.input
  if text.data.isEmpty || st.loading then (st, none)
  else
    ({ messages := st.messages ++ [⟨.user, text⟩],
       input := "", error := "", loading := true }, some text)

/-- The continuation of handleSend after sendChat resolves: success appends
one assistant message, failure stores the error message; both clear
loading. -/
def sendFinish (st : ChatState) (outcome : ChatOutcome) : ChatState :=
  match outcome with
  | .reply r => { st with messages := st.messages ++ [⟨.assistant, r⟩], loading := false }
  | .fail m => { st with error := m, loading := false }

/-- A whole handleSend invocation whose request, if issued, resolves with the
given outcome. -/
def handleSend (st : ChatState) (outcome : ChatOutcome) : ChatState :=
  match sendStart st with
  | (st1, none) => st1
  | (st1, some _) => sendFinish st1 outcome

/-- C5: the chat log is append-only and failure-atomic. An accepted send
first appends exactly one user message carrying the trimmed text; if the
transport call fails, its message is stored as the dismissible error, no
assistant message is appended, and the user message and all prior messages
are unchanged; if it succeeds, exactly one assistant message carrying the
reply is appended after the user message; and every invocation, accepted or
not, leaves the existing messages a prefix of the result. -/
theorem chat_append_only (st : ChatState) (outcome : ChatOutcome)
    (h : ((jsTrim st.input).data.isEmpty || st.loading) = false) :
    (sendStart st).1.messages = st.messages ++ [⟨.user, jsTrim st.input⟩]
    ∧ (∀ m, outcome = .fail m →
        (handleSend st outcome).messages = st.messages ++ [⟨.user, jsTrim st.input⟩]
        ∧ (handleSend st outcome).error = m)
    ∧ (∀ r, outcome = .reply r →
        (handleSend st outcome).messages
          = st.messages ++ [⟨.user, jsTrim st.input⟩, ⟨.assistant, r⟩])
    ∧ (∀ (st' : ChatState) (o : ChatOutcome), ∃ t,
        (handleSend st' o).messages = st'.messages ++ t) := by
  refine ⟨?_, ?_, ?_, ?_⟩
  · simp [sendStart, h]
  · rintro m rfl
    simp [handleSend, sendStart, h, sendFinish]
  · rintro r rfl
    simp [handleSend, sendStart, h, sendFinish]
  · intro st' o
    by_cases h' : ((jsTrim st'.input).data.isEmpty || st'.loading) = true
    · exact ⟨[], by simp [handleSend, sendStart, h']⟩
    · match o with
      | .reply r =>
          exact ⟨[⟨.user, jsTrim st'.input⟩, ⟨.assistant, r⟩],
            by simp [handleSend, sendStart, eq_false_of_ne_true h', sendFinish]⟩
      | .fail m =>
          exact ⟨[⟨.user, jsTrim st'.input⟩],
            by simp [handleSend, sendStart, eq_false_of_ne_true h', sendFinish]⟩

/-- Witness for C5: a failing send from a one-message history. -/
theorem chat_append_only_witness :
    (((jsTrim "how do I improve?").data.isEmpty || false) = false)
    ∧ (handleSend
          { messages := [⟨.user, "hi"⟩], input := "how do I improve?",
            loading := false, error := "" }
          (.fail "Chat failed (500)")).messages
        = [⟨.user, "hi"⟩] ++ [⟨.user, jsTrim "how do I improve?"⟩] :=
  ⟨by decide,
    ((chat_append_only
        { messages := [⟨.user, "hi"⟩], input := "how do I improve?",
          loading := false, error := "" }
        (.fail "Chat failed (500)") (by decide)).2.1 "Chat failed (500)" rfl).1⟩

/-- C7: send is a no-op — no message appended, no request issued, no state
change — whenever the trimmed text is empty or a prior send is outstanding;
and any accepted send sets loading, under which every further send is a
no-op, so at most one send is in flight at a time. -/
theorem chat_send_noop (st : ChatState)
    (h : ((jsTrim st.input).data.isEmpty || st.loading) = true) :
    sendStart st = (st, none)
    ∧ (∀ o, handleSend st o = st)
    ∧ (∀ st' : ChatState, (sendStart st').2.isSome = true →
        (sendStart st').1.loading = true) := by
  refine ⟨?_, ?_, ?_⟩
  · simp [sendStart, h]
  · intro o
    simp [handleSend, sendStart, h]
  · intro st' h'
    by_cases hg : ((jsTrim st'.input).data.isEmpty || st'.loading) = true
    · simp [sendStart, hg] at h'
    · simp [sendStart, eq_false_of_ne_true hg]

/-- Witness for C7: a send attempted while a prior send is outstanding. -/
theorem chat_send_noop_witness :
    (((jsTrim "second question").data.isEmpty || true) = true)
    ∧ handleSend
        { messages := [⟨.user, "first"⟩], input := "second question",
          loading := true, error := "" }
        (.reply "ignored")
      = { messages := [⟨.user, "first"⟩], input := "second question",
          loading := true, error := "" } :=
  ⟨by decide,
    (chat_send_noop
        { messages := [⟨.user, "first"⟩], input := "second question",
          loading := true, error := "" } (by decide)).2.1 (.reply "ignored")⟩

/-- C10: an accepted send clears the input field and dismisses any displayed
chat error before the request is issued (and the request carries the trimmed
text); when the send fails, the typed text is not restored to the input
field — it survives only as the appended user message. -/
theorem chat_input_cleared (st : ChatState)
    (h : ((jsTrim st.input).data.isEmpty || st.loading) = false) :
    (sendStart st).1.input = ""
    ∧ (sendStart st).1.error = ""
    ∧ (sendStart st).2 = some (jsTrim st.input)
    ∧ (∀ m, (handleSend st (.fail m)).input = ""
        ∧ (handleSend st (.fail m)).messages
            = st.messages ++ [⟨.user, jsTrim st.input⟩]) := by
  refine ⟨?_, ?_, ?_, ?_⟩
  · simp [sendStart, h]
  · simp [sendStart, h]
  · simp [sendStart, h]
  · intro m
    constructor
    · simp [handleSend, sendStart, h, sendFinish]
    · simp [handleSend, sendStart, h, sendFinish]

/-- Witness for C10 at a concrete accepted send that fails. -/
theorem chat_input_cleared_witness :
    (((jsTrim " why so slow? ").data.isEmpty || false) = false)
    ∧ (handleSend
          { messages := [], input := " why so slow? ", loading := false, error := "old" }
          (.fail "network down")).input = "" :=
  ⟨by decide,
    ((chat_input_cleared
        { messages := [], input := " why so slow? ", loading := false, error := "old" }
        (by decide)).2.2.2 "network down").1⟩

/-! Transport Client: api.js. On a non-success response each operation
parses the body (the catch at lines 15, 26 and 41 turns an unparseable body
into an empty object, so parsing never throws) and throws an Error whose
message is data.detail when that field is present and truthy, and an
operation-specific synthesized message naming the HTTP status otherwise.
The parse outcome is modelled as an optional detail string: none when the
body is absent or unparseable, some d when a detail field parsed; JS
falsiness makes an empty-string detail fall back as well. -/

/-- Model of the JS expression data.detail or-else fallback. -/
def jsOrDetail (detail : Option String) (fallbackMsg : String) : String :=
  match detail with
  | some d => if d.data.isEmpty then fallbackMsg else d
  | none => fallbackMsg

/-- Message of the error thrown by uploadVideo on a non-ok response, line 16. -/
def uploadVideoErrMsg (status : Nat) (detail : Option String) : String :=
  jsOrDetail detail ("Upload failed (" ++ toString status ++ ")")

/-- Message of the error thrown by getSession on a non-ok response, line 27. -/
def getSessionErrMsg (status : Nat) (detail : Option String) : String :=
  jsOrDetail detail ("Failed to fetch session (" ++ toString status ++ ")")

/-- Message of the error thrown by sendChat on a non-ok response, line 42. -/
def sendChatErrMsg (status : Nat) (detail : Option String) : String :=
  jsOrDetail detail ("Chat failed (" ++ toString status ++ ")")

/-- C4 counterexample: the get-session fallback message at status 500 with an
unparseable body is the string Failed to fetch session (500), which is not of
the claimed synthesized form: no operation name placed in front of the text
failed (500) yields it. -/
theorem getSession_fallback_not_pattern :
    getSessionErrMsg 500 none = "Failed to fetch session (500)"
    ∧ ¬ ∃ op : String, getSessionErrMsg 500 none = op ++ " failed (500)" := by
  refine ⟨rfl, ?_⟩
  rintro ⟨op, h⟩
  have h1 : op ++ (" failed (500)" : String) = "Failed to fetch session (500)" := by
    rw [← h]; rfl
  have hd : op.data ++ (" failed (500)" : String).data
      = ("Failed to fetch session (500)" : String).data := congrArg String.data h1
  have hlen : op.data.length = 16 := by
    have hl := congrArg List.length hd
    simp [List.length_append] at hl
    exact hl
  have hsplit : ("Failed to fetch session (500)" : String).data
      = ("Failed to fetch " : String).data ++ ("session (500)" : String).data := by
    decide
  have hsfx := List.append_inj_right (hd.trans hsplit) (by rw [hlen]; decide)
  exact absurd hsfx (by decide)

/-- C4 amended: for each of the three transport operations, on every
non-success response the surfaced message equals the backend-provided detail
when the error body parses and contains a non-empty one; otherwise it is the
operation-specific synthesized message naming the status: Upload failed for
create session, Failed to fetch session for get session, Chat failed for
chat; body-parse failure never throws, it simply selects the synthesized
message. -/
theorem transport_error_normalization (status : Nat) (detail : String)
    (h : detail.data.isEmpty = false) :
    uploadVideoErrMsg status (some detail) = detail
    ∧ getSessionErrMsg status (some detail) = detail
    ∧ sendChatErrMsg status (some detail) = detail
    ∧ uploadVideoErrMsg status none = "Upload failed (" ++ toString status ++ ")"
    ∧ getSessionErrMsg status none
        = "Failed to fetch session (" ++ toString status ++ ")"
    ∧ sendChatErrMsg status none = "Chat failed (" ++ toString status ++ ")"
    ∧ uploadVideoErrMsg status (some "")
        = "Upload failed (" ++ toString status ++ ")"
    ∧ uploadVideoErrMsg 413 (some "file too large") = "file too large"
    ∧ sendChatErrMsg 500 none = "Chat failed (500)" := by
  refine ⟨?_, ?_, ?_, rfl, rfl, rfl, rfl, by decide, by decide⟩ <;>
    simp [uploadVideoErrMsg, getSessionErrMsg, sendChatErrMsg, jsOrDetail, h]

/-- Witness for C4 amended at status 500 with detail file too large. -/
theorem transport_error_normalization_witness :
    (("file too large" : String).data.isEmpty = false)
    ∧ uploadVideoErrMsg 500 (some "file too large") = "file too large" :=
  ⟨by decide, (transport_error_normalization 500 "file too large" (by decide)).1⟩

end SoulSurfer
